import Mathlib

/-!
Shallow embedding of the `wasmedge_wasi_socket` crate (files `src/socket.rs`
and `src/socket_wamr.rs`).

The crate is a thin FFI binding: every operation marshals its arguments,
performs one host import call, and translates the numeric result.  The
host import surface is external, so each operation is embedded as a pure function
of its explicit arguments together with the host's response (the returned
errno and any output parameters the host writes).  Where a claim is about
which host entry points are invoked and with which arguments, the operation
additionally returns the list of `HostCall` events it emits.

Machine integers are modelled as `Nat`/`Int` with the source's casts made
explicit (`u32 as i32` two's complement, `i32 as u16` truncation, and so on).
Fallible operations return `Except IOError`; the `unimplemented!` branches of
the `recv_from` family are modelled by the `Outcome.panic` constructor.
-/

set_option autoImplicit false

namespace WasiSocket

/-! ## Integer casts used by the source -/

/-- Interpretation of a `u32` value as an `i32` (Rust `as i32` on `u32`). -/
def u32ToI32 (n : Nat) : Int :=
  if n < 2 ^ 31 then (n : Int) else (n : Int) - 2 ^ 32

/-- Truncation of an `i32` value to a `u16` (Rust `as u16`, source
`res as WasiErrno` in every `wamr_sock_*` wrapper). -/
def intToU16 (v : Int) : Nat :=
  (v % (2 ^ 16 : Int)).toNat

/-- Reinterpretation of an `i32` value as a 32-bit `usize` (Rust `as usize`
on wasm32, source `val as usize` in the buffer-size getters). -/
def intToU32 (v : Int) : Nat :=
  (v % (2 ^ 32 : Int)).toNat

/-- Interpretation of a `u64` value as an `i64` (Rust `as i64`, source
`timeout_us as i64` in the timeout setters). -/
def u64ToI64 (n : Nat) : Int :=
  if n < 2 ^ 63 then (n : Int) else (n : Int) - 2 ^ 64

/-- Rust `bool as i32`, used by the `wamr_sock_set_*` wrappers. -/
def boolToI32 (b : Bool) : Int :=
  if b then 1 else 0

/-- The `libc::EINVAL` code used by `Socket::r#type` for an unrecognized
`SO_TYPE` value. -/
def EINVAL : Int := 22

theorem u32ToI32_small {n : Nat} (h : n < 2 ^ 31) : u32ToI32 n = (n : Int) := by
  unfold u32ToI32
  rw [if_pos h]

theorem intToU16_natCast {n : Nat} (h : n < 2 ^ 16) : intToU16 (n : Int) = n := by
  unfold intToU16
  rw [Int.emod_eq_of_lt (by positivity) (by exact_mod_cast h)]
  simp

theorem u64ToI64_small {n : Nat} (h : n < 2 ^ 63) : u64ToI64 n = (n : Int) := by
  unfold u64ToI64
  rw [if_pos h]

/-! ## Error and outcome types -/

/-- The two `std::io::Error` shapes the crate constructs:
`io::Error::from_raw_os_error(code)` and
`io::Error::from(io::ErrorKind::Unsupported)`. -/
inductive IOError where
  | rawOsError (code : Int)
  | unsupported
  deriving DecidableEq, Repr

/-- Result of an operation whose source can also `panic` (the
`unimplemented!` branches of the `recv_from` family). -/
inductive Outcome (α : Type) where
  | ok (a : α)
  | err (e : IOError)
  | panic
  deriving DecidableEq, Repr

/-! ## Enumerations (`socket.rs` and `socket_wamr.rs`) -/

/-- Source `AddressFamily` from `socket.rs`: `Unspec = 0`, `Inet4 = 1`, `Inet6 = 2`
(`repr(u8)`). -/
inductive AddressFamily where
  | unspec
  | inet4
  | inet6
  deriving DecidableEq, Repr

/-- The `repr(u8)` discriminant of `AddressFamily`, used by the
`recv_from` decoders (`AddressFamily::Inet4 as u8`). -/
def AddressFamily.toU8 : AddressFamily → Nat
  | .unspec => 0
  | .inet4 => 1
  | .inet6 => 2

/-- Source `SocketType` from `socket.rs`: `Any = 0`, `Datagram = 1`, `Stream = 2`. -/
inductive SocketType where
  | any
  | datagram
  | stream
  deriving DecidableEq, Repr

/-- Source `socket_wamr::WasiAddressFamily`. -/
inductive WasiAddressFamily where
  | inet4
  | inet6
  | inetUnspec
  deriving DecidableEq, Repr

/-- Source `socket_wamr::WasiSockType`. -/
inductive WasiSockType where
  | socketAny
  | socketDgram
  | socketStream
  deriving DecidableEq, Repr

/-- The `match` on `AddressFamily` shared by `Socket::new` and
`WasiAddrinfo::get_addrinfo`. -/
def marshalAddressFamily : AddressFamily → WasiAddressFamily
  | .inet4 => .inet4
  | .inet6 => .inet6
  | .unspec => .inetUnspec

/-- The `match` on `SocketType` shared by `Socket::new` and
`WasiAddrinfo::get_addrinfo`. -/
def marshalSockType : SocketType → WasiSockType
  | .any => .socketAny
  | .datagram => .socketDgram
  | .stream => .socketStream

/-! ## Native socket addresses (`std::net::SocketAddr`) -/

/-- Source `std::net::SocketAddrV4`: four octets and a host-order `u16` port. -/
structure SockAddrV4 where
  a : Nat
  b : Nat
  c : Nat
  d : Nat
  port : Nat
  deriving DecidableEq, Repr

/-- Source `std::net::SocketAddrV6`: eight 16-bit segments, a host-order port, and
the flowinfo/scope fields (the crate always constructs them as `0`). -/
structure SockAddrV6 where
  s0 : Nat
  s1 : Nat
  s2 : Nat
  s3 : Nat
  s4 : Nat
  s5 : Nat
  s6 : Nat
  s7 : Nat
  port : Nat
  flowinfo : Nat
  scopeId : Nat
  deriving DecidableEq, Repr

/-- Source `std::net::SocketAddr`. -/
inductive SockAddr where
  | v4 (x : SockAddrV4)
  | v6 (x : SockAddrV6)
  deriving DecidableEq, Repr

/-- Source `SocketAddr::port`. -/
def SockAddr.port : SockAddr → Nat
  | .v4 x => x.port
  | .v6 x => x.port

/-- Source `Ipv6Addr::octets`: each segment contributes its big-endian byte pair. -/
def SockAddrV6.octets (x : SockAddrV6) : List Nat :=
  [x.s0 / 256, x.s0 % 256, x.s1 / 256, x.s1 % 256,
   x.s2 / 256, x.s2 % 256, x.s3 / 256, x.s3 % 256,
   x.s4 / 256, x.s4 % 256, x.s5 / 256, x.s5 % 256,
   x.s6 / 256, x.s6 % 256, x.s7 / 256, x.s7 % 256]

/-! ## Wire structs (`socket_wamr.rs`) -/

/-- Source `socket_wamr::WasiAddrIp4`. -/
structure WasiAddrIp4 where
  n0 : Nat
  n1 : Nat
  n2 : Nat
  n3 : Nat
  deriving DecidableEq, Repr

/-- Source `socket_wamr::WasiAddrIp4Port`; the `port` field is documented in the
source as host byte order. -/
structure WasiAddrIp4Port where
  addr : WasiAddrIp4
  port : Nat
  deriving DecidableEq, Repr

/-- Source `socket_wamr::WasiAddrIp6` (eight `u16` fields). -/
structure WasiAddrIp6 where
  n0 : Nat
  n1 : Nat
  n2 : Nat
  n3 : Nat
  h0 : Nat
  h1 : Nat
  h2 : Nat
  h3 : Nat
  deriving DecidableEq, Repr

/-- Source `socket_wamr::WasiAddrIp6Port`. -/
structure WasiAddrIp6Port where
  addr : WasiAddrIp6
  port : Nat
  deriving DecidableEq, Repr

/-- Source `socket_wamr::WasiAddr`: the host writes a raw `kind` tag (`0` = IPv4,
`1` = IPv6 by `WasiAddrType`) next to an untagged payload union; `ip4` and
`ip6` are the two views of that union, and the decoders read only the view
selected by `kind`. -/
structure WasiAddr where
  kind : Nat
  ip4 : WasiAddrIp4Port
  ip6 : WasiAddrIp6Port
  deriving DecidableEq, Repr

/-- Source `WasiAddr::default`: kind IPv4 with an all-zero payload union (both
views of a zeroed union are zero). -/
def WasiAddr.default : WasiAddr :=
  ⟨0, ⟨⟨0, 0, 0, 0⟩, 0⟩, ⟨⟨0, 0, 0, 0, 0, 0, 0, 0⟩, 0⟩⟩

/-- Source `socket_wamr::WasiAddrInfo` (one address-resolution result). -/
structure WasiAddrInfo where
  addr : WasiAddr
  type_ : WasiSockType
  deriving DecidableEq, Repr

/-- Source `WasiAddrInfo::default`: default address (IPv4 `0.0.0.0`, port `0`) and
socket type `SocketAny`. -/
def WasiAddrInfo.default : WasiAddrInfo :=
  ⟨WasiAddr.default, .socketAny⟩

/-- Source `socket_wamr::WasiAddrInfoHints`. -/
structure WasiAddrInfoHints where
  type_ : WasiSockType
  family : WasiAddressFamily
  hintsEnabled : Nat
  deriving DecidableEq, Repr

/-! ## Host entry points of the WAMR socket-option surface

`HostCall` records one invocation of an `extern` import together with the
argument values the wrapper in `socket_wamr.rs` passes (after its casts).
The getter entry points exist in the import table but are listed here only
to make "never invokes a getter" statable. -/

inductive HostCall where
  | sockConnect (fd : Nat) (addr : WasiAddrIp4Port)
  | sockSetBroadcast (fd : Nat) (option : Int)
  | sockSetKeepAlive (fd : Nat) (option : Int)
  | sockSetRecvBufSize (fd : Nat) (size : Int)
  | sockSetReuseAddr (fd : Nat) (reuse : Int)
  | sockSetReusePort (fd : Nat) (reuse : Int)
  | sockSetSendBufSize (fd : Nat) (bufLen : Int)
  | sockSetRecvTimeout (fd : Nat) (timeoutUs : Int)
  | sockSetSendTimeout (fd : Nat) (timeoutUs : Int)
  | sockGetBroadcast (fd : Nat)
  | sockGetKeepAlive (fd : Nat)
  | sockGetRecvBufSize (fd : Nat)
  | sockGetReuseAddr (fd : Nat)
  | sockGetReusePort (fd : Nat)
  | sockGetSendBufSize (fd : Nat)
  | sockGetRecvTimeout (fd : Nat)
  | sockGetSendTimeout (fd : Nat)
  deriving DecidableEq, Repr

/-- Whether a host call is one of the `sock_set_*` (setter) entry points. -/
def HostCall.isSetCall : HostCall → Bool
  | .sockGetBroadcast _ => false
  | .sockGetKeepAlive _ => false
  | .sockGetRecvBufSize _ => false
  | .sockGetReuseAddr _ => false
  | .sockGetReusePort _ => false
  | .sockGetSendBufSize _ => false
  | .sockGetRecvTimeout _ => false
  | .sockGetSendTimeout _ => false
  | _ => true

/-! ## Socket operations (`socket.rs`) -/

/-- Source `Socket::new`: marshals the family/kind enums to their
`socket_wamr` counterparts, calls `wamr_sock_open` (whose `i32` result is
truncated to the `u16` `WasiErrno`), and on success wraps the output fd
(`socket_fd as i32`). -/
def Socket.new (addrFamily : AddressFamily) (sockKind : SocketType)
    (host : WasiAddressFamily → WasiSockType → Int) (socketFd : Nat) :
    Except IOError Int :=
  let wamrAddressFamily := marshalAddressFamily addrFamily
  let wamrSockType := marshalSockType sockKind
  let errno := intToU16 (host wamrAddressFamily wamrSockType)
  if errno = 0 then .ok (u32ToI32 socketFd)
  else .error (.rawOsError (errno : Int))

/-- The `WasiAddr` value `Socket::connect` builds for an IPv4 address:
octets copied field by field, port stored as-is (`port: port`). -/
def connectIp4 (x : SockAddrV4) : WasiAddrIp4Port :=
  ⟨⟨x.a, x.b, x.c, x.d⟩, x.port⟩

/-- Source `Socket::connect`: the IPv4 path marshals the address into a `WasiAddr`
and calls `wamr_sock_connect`; every other address returns
`ErrorKind::Unsupported` before any host call.  The second component is the
list of host calls performed. -/
def Socket.connect (fd : Nat) (addrs : SockAddr) (host : HostCall → Int) :
    Except IOError Unit × List HostCall :=
  match addrs with
  | .v4 x =>
      let wasiAddr := connectIp4 x
      let errno := intToU16 (host (.sockConnect fd wasiAddr))
      (if errno ≠ 0 then .error (.rawOsError (errno : Int)) else .ok (),
       [.sockConnect fd wasiAddr])
  | .v6 _ => (.error .unsupported, [])

/-- The buffer, port and size `Socket::bind` passes to `sock_bind`: a
16-byte scratch buffer whose leading 4 (IPv4) or 16 (IPv6) bytes are the
raw octets, the host-order port, and the octet count. -/
def bindMarshal (addrs : SockAddr) : List Nat × Nat × Nat :=
  match addrs with
  | .v4 x => ([x.a, x.b, x.c, x.d] ++ List.replicate 12 0, x.port, 4)
  | .v6 x => (x.octets, x.port, 16)

/-- Source `Socket::bind`: marshals the address and calls `sock_bind(fd, addr,
port as u32)`; `host` receives the buffer, the port and the size. -/
def Socket.bind (fd : Nat) (addrs : SockAddr)
    (host : List Nat → Nat → Nat → Nat) : Except IOError Unit :=
  let m := bindMarshal addrs
  let res := host m.1 m.2.1 m.2.2
  if res ≠ 0 then .error (.rawOsError (u32ToI32 res)) else .ok ()

/-- Source `Socket::listen`: one call to `sock_listen`. -/
def Socket.listen (fd : Nat) (backlog : Nat) (res : Nat) :
    Except IOError Unit :=
  if res ≠ 0 then .error (.rawOsError (u32ToI32 res)) else .ok ()

/-- The `fcntl`-based `fcntl_add` helper: read the current flags, or the
flags with `flag` set if they differ.  `getRes`/`setRes` are the outcomes of
the two `fcntl` syscalls (error side carries the raw OS error). -/
def fcntl_add (getRes : Except Int Nat) (setRes : Except Int Nat)
    (flag : Nat) : Except IOError Unit :=
  match getRes with
  | .error e => .error (.rawOsError e)
  | .ok previous =>
      let updated := previous.lor flag
      if updated ≠ previous then
        match setRes with
        | .error e => .error (.rawOsError e)
        | .ok _ => .ok ()
      else .ok ()

/-- The `fcntl`-based `fcntl_remove` helper (`previous & !flag` in 32-bit
arithmetic). -/
def fcntl_remove (getRes : Except Int Nat) (setRes : Except Int Nat)
    (flag : Nat) : Except IOError Unit :=
  match getRes with
  | .error e => .error (.rawOsError e)
  | .ok previous =>
      let updated := previous.land (2 ^ 32 - 1 - flag)
      if updated ≠ previous then
        match setRes with
        | .error e => .error (.rawOsError e)
        | .ok _ => .ok ()
      else .ok ()

/-- Source `O_NONBLOCK` of wasi-libc (the WASI fdflag `NONBLOCK`). -/
def O_NONBLOCK : Nat := 4

/-- Source `Socket::set_nonblocking`: adds or removes `O_NONBLOCK` on the
descriptor's file-status flags via `fcntl`. -/
def Socket.set_nonblocking (fd : Int) (nonblocking : Bool)
    (getRes : Except Int Nat) (setRes : Except Int Nat) :
    Except IOError Unit :=
  if nonblocking then fcntl_add getRes setRes O_NONBLOCK
  else fcntl_remove getRes setRes O_NONBLOCK

/-- Source `Socket::accept`: on host success wraps the new fd and applies
`set_nonblocking` to it, propagating any `fcntl` failure. -/
def Socket.accept (fd : Nat) (nonblocking : Bool) (res : Nat) (newFd : Nat)
    (getRes : Except Int Nat) (setRes : Except Int Nat) :
    Except IOError Int :=
  if res ≠ 0 then .error (.rawOsError (u32ToI32 res))
  else
    match Socket.set_nonblocking (u32ToI32 newFd) nonblocking getRes setRes with
    | .error e => .error e
    | .ok _ => .ok (u32ToI32 newFd)

/-- Source `Socket::send`: one `sock_send` call; `sendLen` is the byte count the
host wrote. -/
def Socket.send (fd : Nat) (bufLen : Nat) (res : Nat) (sendLen : Nat) :
    Except IOError Nat :=
  if res = 0 then .ok sendLen else .error (.rawOsError (u32ToI32 res))

/-- The octet buffer and port `Socket::send_to` marshals from the
destination address. -/
def sendToMarshal (addrs : SockAddr) : List Nat × Nat :=
  match addrs with
  | .v4 x => ([x.a, x.b, x.c, x.d], x.port)
  | .v6 x => (x.octets, x.port)

/-- Source `Socket::send_to`: marshals the destination and performs one
`sock_send_to` call. -/
def Socket.send_to (fd : Nat) (bufLen : Nat) (addrs : SockAddr)
    (host : List Nat → Nat → Nat) (sendLen : Nat) : Except IOError Nat :=
  let m := sendToMarshal addrs
  let res := host m.1 m.2
  if res = 0 then .ok sendLen else .error (.rawOsError (u32ToI32 res))

/-- Source `Socket::recv`: one `sock_recv` call. -/
def Socket.recv (fd : Nat) (bufLen : Nat) (res : Nat) (recvLen : Nat) :
    Except IOError Nat :=
  if res = 0 then .ok recvLen else .error (.rawOsError (u32ToI32 res))

/-- The address decode shared by the `recv_from` family: the first two
buffer bytes are a little-endian `u16` truncated to `u8`; tag `1`
(`AddressFamily::Inet4 as u8`) reads four octets, tag `2` reads sixteen
bytes as big-endian IPv6 segments, and anything else hits
`unimplemented!` (a panic). -/
def decodeRecvFromAddr (addrBuf : List Nat) (sinPort : Nat) :
    Outcome SockAddr :=
  let b : Nat → Nat := fun i => addrBuf.getD i 0 % 256
  let sinFamily := (b 0 + 256 * b 1) % 256
  if sinFamily = 1 then
    .ok (.v4 ⟨b 2, b 3, b 4, b 5, sinPort % 2 ^ 16⟩)
  else if sinFamily = 2 then
    .ok (.v6 ⟨b 2 * 256 + b 3, b 4 * 256 + b 5, b 6 * 256 + b 7,
              b 8 * 256 + b 9, b 10 * 256 + b 11, b 12 * 256 + b 13,
              b 14 * 256 + b 15, b 16 * 256 + b 17, sinPort % 2 ^ 16, 0, 0⟩)
  else .panic

/-- Source `Socket::recv_from`: one `sock_recv_from` call, then the address decode
on the buffer the host wrote. -/
def Socket.recv_from (fd : Nat) (res : Nat) (addrBuf : List Nat)
    (sinPort : Nat) (recvLen : Nat) : Outcome (Nat × SockAddr) :=
  if res = 0 then
    match decodeRecvFromAddr addrBuf sinPort with
    | .ok a => .ok (recvLen, a)
    | .err e => .err e
    | .panic => .panic
  else .err (.rawOsError (u32ToI32 res))

/-- Source `Socket::recv_from_with_flags`: as `recv_from`, also surfacing the
host's out-of-band `oflags`. -/
def Socket.recv_from_with_flags (fd : Nat) (res : Nat) (addrBuf : List Nat)
    (sinPort : Nat) (recvLen : Nat) (oflags : Nat) :
    Outcome (Nat × SockAddr × Nat) :=
  if res = 0 then
    match decodeRecvFromAddr addrBuf sinPort with
    | .ok a => .ok (recvLen, a, oflags)
    | .err e => .err e
    | .panic => .panic
  else .err (.rawOsError (u32ToI32 res))

/-- Source `Socket::recv_from_vectored`: same result shape as
`recv_from_with_flags`. -/
def Socket.recv_from_vectored (fd : Nat) (res : Nat) (addrBuf : List Nat)
    (sinPort : Nat) (recvLen : Nat) (oflags : Nat) :
    Outcome (Nat × SockAddr × Nat) :=
  if res = 0 then
    match decodeRecvFromAddr addrBuf sinPort with
    | .ok a => .ok (recvLen, a, oflags)
    | .err e => .err e
    | .panic => .panic
  else .err (.rawOsError (u32ToI32 res))

/-- Source `std::net::Shutdown`. -/
inductive Shutdown where
  | read
  | write
  | both
  deriving DecidableEq, Repr

/-- The flag value `Socket::shutdown` passes to `sock_shutdown`. -/
def shutdownFlags : Shutdown → Nat
  | .read => 1
  | .write => 2
  | .both => 3

/-- Source `Socket::shutdown`: one `sock_shutdown` call. -/
def Socket.shutdown (fd : Nat) (how : Shutdown) (res : Nat) :
    Except IOError Unit :=
  if res = 0 then .ok () else .error (.rawOsError (u32ToI32 res))

/-! ## Option getters through `sock_getsockopt` (`socket.rs`)

Each getter performs one `sock_getsockopt` call with a fixed level/name
pair; `res` is the `u32` the import returns and `val` the `i32` the host
wrote into the output flag. -/

/-- Source `Socket::broadcast` (`SO_BROADCAST`). -/
def Socket.broadcast (fd : Nat) (res : Nat) (val : Int) :
    Except IOError Bool :=
  if res ≠ 0 then .error (.rawOsError (u32ToI32 res))
  else .ok (decide (val ≠ 0))

/-- Source `Socket::keepalive` (`SO_KEEPALIVE`). -/
def Socket.keepalive (fd : Nat) (res : Nat) (val : Int) :
    Except IOError Bool :=
  if res ≠ 0 then .error (.rawOsError (u32ToI32 res))
  else .ok (decide (val ≠ 0))

/-- Source `Socket::reuse_address` (`SO_REUSEADDR`). -/
def Socket.reuse_address (fd : Nat) (res : Nat) (val : Int) :
    Except IOError Bool :=
  if res ≠ 0 then .error (.rawOsError (u32ToI32 res))
  else .ok (decide (val ≠ 0))

/-- Source `Socket::is_listener` (`SO_ACCEPTCONN`). -/
def Socket.is_listener (fd : Nat) (res : Nat) (val : Int) :
    Except IOError Bool :=
  if res ≠ 0 then .error (.rawOsError (u32ToI32 res))
  else .ok (decide (val ≠ 0))

/-- Source `Socket::recv_buffer_size` (`SO_RCVBUF`; `val as usize` on wasm32). -/
def Socket.recv_buffer_size (fd : Nat) (res : Nat) (val : Int) :
    Except IOError Nat :=
  if res ≠ 0 then .error (.rawOsError (u32ToI32 res))
  else .ok (intToU32 val)

/-- Source `Socket::send_buffer_size` (`SO_SNDBUF`). -/
def Socket.send_buffer_size (fd : Nat) (res : Nat) (val : Int) :
    Except IOError Nat :=
  if res ≠ 0 then .error (.rawOsError (u32ToI32 res))
  else .ok (intToU32 val)

/-- Source `Socket::r#type` (`SO_TYPE`): on host success the written value must be
`1` (Datagram) or `2` (Stream); anything else yields a local `EINVAL`. -/
def Socket.type (fd : Nat) (res : Nat) (val : Int) :
    Except IOError SocketType :=
  if res ≠ 0 then .error (.rawOsError (u32ToI32 res))
  else if val = 1 then .ok .datagram
  else if val = 2 then .ok .stream
  else .error (.rawOsError EINVAL)

/-! ## Typed socket options routed through the WAMR entry points -/

/-- Source `socket_wamr::SocketOptName`: each variant carries its typed value. -/
inductive SocketOptName where
  | soReuseaddr (value : Bool)
  | soReuseport (value : Bool)
  | soBroadcast (value : Bool)
  | soSndbuf (value : Nat)
  | soRcvbuf (value : Nat)
  | soKeepalive (value : Bool)
  | soRcvtimeo (value : Nat)
  | soSndtimeo (value : Nat)
  deriving DecidableEq, Repr

/-- Source `Socket::setsockopt_socket`: dispatches each variant to its
`wamr_sock_set_*` wrapper, which converts the value (`bool as i32`,
`u32 as i32`, `u64 as i64`) and performs exactly one host call. -/
def Socket.setsockopt_socket (fd : Nat) (name : SocketOptName)
    (host : HostCall → Int) : Except IOError Unit × List HostCall :=
  let call : HostCall :=
    match name with
    | .soBroadcast value => .sockSetBroadcast fd (boolToI32 value)
    | .soKeepalive value => .sockSetKeepAlive fd (boolToI32 value)
    | .soRcvbuf value => .sockSetRecvBufSize fd (u32ToI32 value)
    | .soReuseaddr value => .sockSetReuseAddr fd (boolToI32 value)
    | .soReuseport value => .sockSetReusePort fd (boolToI32 value)
    | .soSndbuf value => .sockSetSendBufSize fd (u32ToI32 value)
    | .soRcvtimeo value => .sockSetRecvTimeout fd (u64ToI64 value)
    | .soSndtimeo value => .sockSetSendTimeout fd (u64ToI64 value)
  let errno := intToU16 (host call)
  (if errno = 0 then .ok () else .error (.rawOsError (errno : Int)), [call])

/-- Source `Socket::getsockopt_socket`: its body is the same dispatch as
`setsockopt_socket` — every arm calls the `wamr_sock_set_*` wrapper, not a
getter. -/
def Socket.getsockopt_socket (fd : Nat) (name : SocketOptName)
    (host : HostCall → Int) : Except IOError Unit × List HostCall :=
  let call : HostCall :=
    match name with
    | .soBroadcast value => .sockSetBroadcast fd (boolToI32 value)
    | .soKeepalive value => .sockSetKeepAlive fd (boolToI32 value)
    | .soRcvbuf value => .sockSetRecvBufSize fd (u32ToI32 value)
    | .soReuseaddr value => .sockSetReuseAddr fd (boolToI32 value)
    | .soReuseport value => .sockSetReusePort fd (boolToI32 value)
    | .soSndbuf value => .sockSetSendBufSize fd (u32ToI32 value)
    | .soRcvtimeo value => .sockSetRecvTimeout fd (u64ToI64 value)
    | .soSndtimeo value => .sockSetSendTimeout fd (u64ToI64 value)
  let errno := intToU16 (host call)
  (if errno = 0 then .ok () else .error (.rawOsError (errno : Int)), [call])

/-! ## Local/peer address queries -/

/-- The `WasiAddr` decode shared by `Socket::get_local` and
`Socket::get_peer`: kind `0` (`WasiAddrType::IPv4`) reads the `ip4` view,
kind `1` the `ip6` view, anything else is `ErrorKind::Unsupported`. -/
def decodeWasiAddr (w : WasiAddr) : Except IOError SockAddr :=
  if w.kind = 0 then
    .ok (.v4 ⟨w.ip4.addr.n0, w.ip4.addr.n1, w.ip4.addr.n2, w.ip4.addr.n3,
              w.ip4.port⟩)
  else if w.kind = 1 then
    .ok (.v6 ⟨w.ip6.addr.n0, w.ip6.addr.n1, w.ip6.addr.n2, w.ip6.addr.n3,
              w.ip6.addr.h0, w.ip6.addr.h1, w.ip6.addr.h2, w.ip6.addr.h3,
              w.ip6.port, 0, 0⟩)
  else .error .unsupported

/-- Source `Socket::get_local`: one `wamr_sock_addr_local` call, then the
`WasiAddr` decode on the struct the host filled. -/
def Socket.get_local (fd : Nat) (hostRes : Int) (w : WasiAddr) :
    Except IOError SockAddr :=
  let errno := intToU16 hostRes
  if errno ≠ 0 then .error (.rawOsError (errno : Int)) else decodeWasiAddr w

/-- Source `Socket::get_peer`: one `wamr_sock_addr_remote` call, then the same
decode. -/
def Socket.get_peer (fd : Nat) (hostRes : Int) (w : WasiAddr) :
    Except IOError SockAddr :=
  let errno := intToU16 hostRes
  if errno ≠ 0 then .error (.rawOsError (errno : Int)) else decodeWasiAddr w

/-! ## Address resolution (`WasiAddrinfo::get_addrinfo`) -/

/-- Source `AiFlags` from `socket.rs`. -/
inductive AiFlags where
  | aiPassive
  | aiCanonname
  | aiNumericHost
  | aiNumericServ
  | aiV4Mapped
  | aiAll
  | aiAddrConfig
  deriving DecidableEq, Repr

/-- Source `AiProtocol` from `socket.rs`. -/
inductive AiProtocol where
  | ipProtoIP
  | ipProtoTCP
  | ipProtoUDP
  deriving DecidableEq, Repr

/-- The hints struct `socket.rs::WasiAddrinfo` (scalar fields; the raw
pointer fields carry no value relevant to `get_addrinfo`, which reads only
`ai_socktype` and `ai_family`). -/
structure WasiAddrinfo where
  aiFlags : AiFlags
  aiFamily : AddressFamily
  aiSocktype : SocketType
  aiProtocol : AiProtocol
  aiAddrlen : Nat
  aiCanonnamelen : Nat
  deriving DecidableEq, Repr

/-- The defensive terminator normalization in `get_addrinfo`:
`if !s.ends_with('\x00') { s.push('\x00') }`, on byte strings. -/
def ensureNulTerminated (s : List Nat) : List Nat :=
  if s.getLast? = some 0 then s else s ++ [0]

/-- The arguments `get_addrinfo` hands to `wamr_sock_addr_resolve`. -/
structure AddrResolveCall where
  node : List Nat
  service : List Nat
  hints : WasiAddrInfoHints
  maxResLen : Nat
  deriving DecidableEq, Repr

/-- The host's response to `sock_addr_resolve`: the `i32` result, the
result entries it wrote into the caller's array, and the actual count it
stored in `max_info_size`. -/
structure AddrResolveResponse where
  hostRes : Int
  written : List WasiAddrInfo
  actualCount : Nat

/-- Source `WasiAddrinfo::get_addrinfo`: normalizes the terminators, marshals the
hints, allocates `max_reslen` default entries of which the host overwrites
a prefix, and returns the whole array on errno `0` (the actual-count output
is never read).  The second component is the host call made. -/
def WasiAddrinfo.get_addrinfo (node service : List Nat)
    (hints : WasiAddrinfo) (maxReslen : Nat) (resp : AddrResolveResponse) :
    Except IOError (List WasiAddrInfo) × AddrResolveCall :=
  let node2 := ensureNulTerminated node
  let service2 := ensureNulTerminated service
  let socketType := marshalSockType hints.aiSocktype
  let addressFamily := marshalAddressFamily hints.aiFamily
  let wamrHints : WasiAddrInfoHints := ⟨socketType, addressFamily, 0⟩
  let initArray := List.replicate maxReslen WasiAddrInfo.default
  let wrote := resp.written.take maxReslen
  let addrInfoArray := wrote ++ initArray.drop wrote.length
  let errno := intToU16 resp.hostRes
  (if errno ≠ 0 then .error (.rawOsError (errno : Int)) else .ok addrInfoArray,
   ⟨node2, service2, wamrHints, maxReslen⟩)

/-- Modelled from the spec: the big-endian re-encoding of a host-order
16-bit port ("a port value's on-wire bytes equal the big-endian encoding of
the host-order value"), i.e. the byte swap `htons` would perform.  Used
only to compare the spec's byte-order convention with what the source
passes. -/
def htons (p : Nat) : Nat :=
  (p % 256) * 256 + (p / 256) % 256

/-! ## Helper lemmas -/

theorem intToU16_zero : intToU16 0 = 0 := rfl

theorem ensureNulTerminated_getLast (s : List Nat) :
    (ensureNulTerminated s).getLast? = some 0 := by
  unfold ensureNulTerminated
  split
  · assumption
  · exact List.getLast?_concat s

theorem getD_replicate_default {α : Type} (m k : Nat) (a : α) :
    (List.replicate m a).getD k a = a := by
  induction m generalizing k with
  | zero => simp [List.getD]
  | succ n ih =>
      cases k with
      | zero => simp [List.replicate]
      | succ j => simp [List.replicate, ih j]

/-! ## Claim theorems -/

/-- C2: `Socket::connect` returns the `Unsupported` classification for every
non-IPv4 (i.e. IPv6) address without invoking any host import, and for an
IPv4 address it performs exactly the `sock_connect` host call with the
marshalled address. -/
theorem connect_ipv4_only_marshals (fd : Nat) (host : HostCall → Int)
    (x6 : SockAddrV6) (x4 : SockAddrV4) :
    Socket.connect fd (.v6 x6) host = (.error .unsupported, []) ∧
    (Socket.connect fd (.v4 x4) host).2 = [.sockConnect fd (connectIp4 x4)] :=
  ⟨rfl, rfl⟩

/-- C5: for every option variant and file descriptor,
`Socket::getsockopt_socket` behaves identically to
`Socket::setsockopt_socket` — same result and same host-call sequence — and
that sequence consists only of setter entry points (it never reads a value
back). -/
theorem getsockopt_socket_eq_setsockopt_socket (fd : Nat)
    (name : SocketOptName) (host : HostCall → Int) :
    Socket.getsockopt_socket fd name host =
      Socket.setsockopt_socket fd name host ∧
    (Socket.getsockopt_socket fd name host).2.all HostCall.isSetCall = true := by
  cases name <;> exact ⟨rfl, rfl⟩

/-- C6 counterexample: the claim says the marshalled port field is the
big-endian encoding of the host-order port.  For port `1` the source stores
`1` in the `WasiAddrIp4Port` port field (`port: port`, documented as host
byte order), while the big-endian encoding would be `256`. -/
theorem port_not_big_endian :
    (connectIp4 ⟨1, 2, 3, 4, 1⟩).port = 1 ∧ htons 1 = 256 ∧
    (connectIp4 ⟨1, 2, 3, 4, 1⟩).port ≠ htons 1 :=
  ⟨rfl, rfl, by decide⟩

/-- C6 amended: ports cross the boundary in host byte order unchanged — in
the `WasiAddrIp4Port` field `Socket::connect` builds, in the port argument
`Socket::bind` and `Socket::send_to` pass, and back out unchanged when the
local/peer decoder reads a host-written struct. -/
theorem port_host_order_passthrough (x : SockAddrV4) (addrs : SockAddr)
    (p : WasiAddrIp4Port) (j : WasiAddrIp6Port) :
    (connectIp4 x).port = x.port ∧
    (bindMarshal addrs).2.1 = addrs.port ∧
    (sendToMarshal addrs).2 = addrs.port ∧
    decodeWasiAddr ⟨0, p, j⟩ =
      .ok (.v4 ⟨p.addr.n0, p.addr.n1, p.addr.n2, p.addr.n3, p.port⟩) := by
  refine ⟨rfl, ?_, ?_, rfl⟩
  · cases addrs <;> rfl
  · cases addrs <;> rfl

/-- C7 counterexample: encoding `1.2.3.4:5` with the `bind`/`send_to`
layout (raw octets at offset 0) and decoding with the `recv_from` decoder
(which expects a 2-byte family tag first) yields `3.4.0.0:5`, not the
original address: the two layouts are different, so the claimed round-trip
fails. -/
theorem bind_encode_recv_from_decode_mismatch :
    decodeRecvFromAddr (bindMarshal (SockAddr.v4 ⟨1, 2, 3, 4, 5⟩)).1 5 =
      Outcome.ok (SockAddr.v4 ⟨3, 4, 0, 0, 5⟩) ∧
    decodeRecvFromAddr (bindMarshal (SockAddr.v4 ⟨1, 2, 3, 4, 5⟩)).1 5 ≠
      Outcome.ok (SockAddr.v4 ⟨1, 2, 3, 4, 5⟩) := by
  constructor <;> decide

/-- C7 amended: the encode/decode pair that does round-trip in this layer
is the `WasiAddr` struct: marshalling any valid IPv4 address+port as
`Socket::connect` does and decoding the struct as `Socket::get_local` /
`Socket::get_peer` do yields the original address and port, for all octets
and ports 0–65535 (the `bind` buffer and the `recv_from` buffer use
different layouts and do not compose). -/
theorem wasi_addr_ip4_roundtrip (x : SockAddrV4) (j : WasiAddrIp6Port)
    (ha : x.a < 256) (hb : x.b < 256) (hc : x.c < 256) (hd : x.d < 256)
    (hp : x.port < 2 ^ 16) :
    decodeWasiAddr ⟨0, connectIp4 x, j⟩ = .ok (.v4 x) := by
  cases x
  rfl

/-- Witness for the amended C7 round-trip at `192.168.0.1:8080`. -/
theorem wasi_addr_ip4_roundtrip_witness :
    decodeWasiAddr ⟨0, connectIp4 ⟨192, 168, 0, 1, 8080⟩,
        ⟨⟨0, 0, 0, 0, 0, 0, 0, 0⟩, 0⟩⟩ =
      Except.ok (SockAddr.v4 ⟨192, 168, 0, 1, 8080⟩) :=
  wasi_addr_ip4_roundtrip ⟨192, 168, 0, 1, 8080⟩ ⟨⟨0, 0, 0, 0, 0, 0, 0, 0⟩, 0⟩
    (by decide) (by decide) (by decide) (by decide) (by decide)

/-- C3 counterexample: `Socket::recv_from` with host success and an
address buffer whose family tag is neither the IPv4 value (1) nor the IPv6
value (2) hits `unimplemented!` — it aborts instead of returning the
claimed "unsupported operation" error. -/
theorem recv_from_unknown_family_panics :
    Socket.recv_from 3 0 (List.replicate 128 0) 0 0 = Outcome.panic ∧
    Socket.recv_from 3 0 (List.replicate 128 0) 0 0 ≠
      Outcome.err IOError.unsupported := by
  constructor <;> decide

/-- C1 counterexample: `Socket::r#type` with host errno `0` (success) but a
written option value that is neither 1 nor 2 returns a locally generated
`EINVAL` error, so the operation does not "return success exactly when the
host returns error code 0". -/
theorem type_errs_on_host_success :
    Socket.type 3 0 0 = Except.error (IOError.rawOsError EINVAL) := rfl

/-- C3 amended: when the host-supplied address family tag is neither the
IPv4 nor the IPv6 value, `Socket::get_local` and `Socket::get_peer` return
the "unsupported operation" classification (distinct from a host error),
but the `recv_from` family aborts through `unimplemented!` instead of
returning an error. -/
theorem unknown_family_classification_amended (fd : Nat) (w : WasiAddr)
    (hk0 : w.kind ≠ 0) (hk1 : w.kind ≠ 1) (addrBuf : List Nat)
    (hf1 : addrBuf.getD 0 0 % 256 ≠ 1) (hf2 : addrBuf.getD 0 0 % 256 ≠ 2)
    (sinPort recvLen oflags : Nat) :
    Socket.get_local fd 0 w = .error .unsupported ∧
    Socket.get_peer fd 0 w = .error .unsupported ∧
    Socket.recv_from fd 0 addrBuf sinPort recvLen = .panic ∧
    Socket.recv_from_with_flags fd 0 addrBuf sinPort recvLen oflags =
      .panic ∧
    Socket.recv_from_vectored fd 0 addrBuf sinPort recvLen oflags =
      .panic := by
  have hfam : (addrBuf.getD 0 0 % 256 + 256 * (addrBuf.getD 1 0 % 256)) % 256
      = addrBuf.getD 0 0 % 256 := by omega
  have hdec : decodeRecvFromAddr addrBuf sinPort = .panic := by
    unfold decodeRecvFromAddr
    simp only [hfam]
    rw [if_neg hf1, if_neg hf2]
  refine ⟨?_, ?_, ?_, ?_, ?_⟩
  · simp [Socket.get_local, intToU16_zero, decodeWasiAddr, hk0, hk1]
  · simp [Socket.get_peer, intToU16_zero, decodeWasiAddr, hk0, hk1]
  · simp [Socket.recv_from, hdec]
  · simp [Socket.recv_from_with_flags, hdec]
  · simp [Socket.recv_from_vectored, hdec]

/-- Witness for the amended C3 at kind tag 2 (`get_local`) and family
byte 0 (`recv_from`). -/
theorem unknown_family_classification_witness :
    Socket.get_local 3 0 ⟨2, ⟨⟨0, 0, 0, 0⟩, 0⟩, ⟨⟨0, 0, 0, 0, 0, 0, 0, 0⟩, 0⟩⟩
      = Except.error IOError.unsupported ∧
    Socket.recv_from 3 0 [0] 0 0 = Outcome.panic := by
  have h := unknown_family_classification_amended 3
    ⟨2, ⟨⟨0, 0, 0, 0⟩, 0⟩, ⟨⟨0, 0, 0, 0, 0, 0, 0, 0⟩, 0⟩⟩
    (by decide) (by decide) [0] (by decide) (by decide) 0 0 0
  exact ⟨h.1, h.2.2.1⟩

/-- C4: `WasiAddrinfo::get_addrinfo` returns `Ok` whenever the host errno
is `0` — truncation (more matches than the caller's maximum) is never
turned into an error — the returned vector never exceeds the requested
maximum, and an error is returned exactly when the host errno is nonzero,
carrying it unchanged. -/
theorem get_addrinfo_truncation_not_error (node service : List Nat)
    (hints : WasiAddrinfo) (maxReslen : Nat) (resp : AddrResolveResponse)
    (hlo : 0 ≤ resp.hostRes) (hhi : resp.hostRes < 2 ^ 16) :
    (resp.hostRes = 0 →
      ((WasiAddrinfo.get_addrinfo node service hints maxReslen resp).1).isOk
        = true) ∧
    (∀ l, (WasiAddrinfo.get_addrinfo node service hints maxReslen resp).1 =
        .ok l → l.length ≤ maxReslen) ∧
    (resp.hostRes ≠ 0 →
      (WasiAddrinfo.get_addrinfo node service hints maxReslen resp).1 =
        .error (.rawOsError resp.hostRes)) := by
  obtain ⟨n, hn⟩ := Int.eq_ofNat_of_zero_le hlo
  have hn16 : n < 2 ^ 16 := by exact_mod_cast hn ▸ hhi
  have h16 : intToU16 resp.hostRes = n := hn ▸ intToU16_natCast hn16
  by_cases hz : n = 0
  · have hok : (WasiAddrinfo.get_addrinfo node service hints maxReslen
        resp).1 = .ok (resp.written.take maxReslen ++
          (List.replicate maxReslen WasiAddrInfo.default).drop
            (resp.written.take maxReslen).length) := by
      simp [WasiAddrinfo.get_addrinfo, h16, hz]
    have hlen0 : (resp.written.take maxReslen ++
        (List.replicate maxReslen WasiAddrInfo.default).drop
          (resp.written.take maxReslen).length).length ≤ maxReslen := by
      simp
    refine ⟨fun _ => by rw [hok]; rfl, ?_, ?_⟩
    · intro l hl
      rw [hok, Except.ok.injEq] at hl
      exact hl ▸ hlen0
    · intro hne
      exact absurd (by rw [hn, hz]; rfl) hne
  · have herr : (WasiAddrinfo.get_addrinfo node service hints maxReslen
        resp).1 = .error (.rawOsError (n : Int)) := by
      simp [WasiAddrinfo.get_addrinfo, h16, hz]
    refine ⟨?_, ?_, ?_⟩
    · intro h0
      exact absurd (by exact_mod_cast hn ▸ h0) hz
    · intro l hl
      rw [herr] at hl
      simp at hl
    · intro _
      rw [herr, hn]

/-- Witness for C4: the host reports success with 2 matches but the caller
asked for at most 1 — the call still succeeds. -/
theorem get_addrinfo_truncation_witness :
    ((WasiAddrinfo.get_addrinfo [110, 0] [0]
      ⟨.aiPassive, .inet4, .stream, .ipProtoTCP, 0, 0⟩ 1
      ⟨0, [WasiAddrInfo.default, WasiAddrInfo.default], 2⟩).1).isOk = true :=
  (get_addrinfo_truncation_not_error [110, 0] [0]
    ⟨.aiPassive, .inet4, .stream, .ipProtoTCP, 0, 0⟩ 1
    ⟨0, [WasiAddrInfo.default, WasiAddrInfo.default], 2⟩
    (by decide) (by decide)).1 rfl

/-- C9: the node and service strings handed to the host resolution call are
always NUL-terminated — a string already ending in NUL is passed unchanged,
otherwise exactly one NUL byte is appended — and the operation's result
does not depend on the caller's strings at all, so a missing terminator
never causes a failure. -/
theorem get_addrinfo_nul_termination (node service : List Nat)
    (hints : WasiAddrinfo) (maxReslen : Nat) (resp : AddrResolveResponse) :
    ((WasiAddrinfo.get_addrinfo node service hints maxReslen resp).2.node.getLast?
      = some 0) ∧
    ((WasiAddrinfo.get_addrinfo node service hints maxReslen resp).2.service.getLast?
      = some 0) ∧
    (node.getLast? = some 0 →
      (WasiAddrinfo.get_addrinfo node service hints maxReslen resp).2.node
        = node) ∧
    (node.getLast? ≠ some 0 →
      (WasiAddrinfo.get_addrinfo node service hints maxReslen resp).2.node
        = node ++ [0]) ∧
    (service.getLast? = some 0 →
      (WasiAddrinfo.get_addrinfo node service hints maxReslen resp).2.service
        = service) ∧
    (service.getLast? ≠ some 0 →
      (WasiAddrinfo.get_addrinfo node service hints maxReslen resp).2.service
        = service ++ [0]) ∧
    (∀ node2 service2 : List Nat,
      (WasiAddrinfo.get_addrinfo node2 service2 hints maxReslen resp).1 =
      (WasiAddrinfo.get_addrinfo node service hints maxReslen resp).1) := by
  refine ⟨ensureNulTerminated_getLast node, ensureNulTerminated_getLast service,
    ?_, ?_, ?_, ?_, fun _ _ => rfl⟩
  · intro h
    simp [WasiAddrinfo.get_addrinfo, ensureNulTerminated, h]
  · intro h
    simp [WasiAddrinfo.get_addrinfo, ensureNulTerminated, h]
  · intro h
    simp [WasiAddrinfo.get_addrinfo, ensureNulTerminated, h]
  · intro h
    simp [WasiAddrinfo.get_addrinfo, ensureNulTerminated, h]

/-- Witness for C9: a node string without a terminator gets exactly one NUL
appended. -/
theorem get_addrinfo_nul_termination_witness :
    (WasiAddrinfo.get_addrinfo [104, 105] [0]
      ⟨.aiPassive, .inet4, .stream, .ipProtoTCP, 0, 0⟩ 1 ⟨0, [], 0⟩).2.node
      = [104, 105, 0] :=
  (get_addrinfo_nul_termination [104, 105] [0]
    ⟨.aiPassive, .inet4, .stream, .ipProtoTCP, 0, 0⟩ 1
    ⟨0, [], 0⟩).2.2.2.1 (by decide)

/-- C10: on host success `get_addrinfo` returns the whole `max_reslen`
array — the written prefix followed by default entries (IPv4 `0.0.0.0:0`,
socket type Any) — so the result length is exactly the requested maximum,
and the actual-count output the host wrote is discarded (the result is the
same for every actual count). -/
theorem get_addrinfo_result_length_and_defaults (node service : List Nat)
    (hints : WasiAddrinfo) (maxReslen : Nat) (resp : AddrResolveResponse)
    (h0 : resp.hostRes = 0) :
    ((WasiAddrinfo.get_addrinfo node service hints maxReslen resp).1 =
      .ok (resp.written.take maxReslen ++
        List.replicate (maxReslen - (resp.written.take maxReslen).length)
          WasiAddrInfo.default)) ∧
    (∀ l, (WasiAddrinfo.get_addrinfo node service hints maxReslen resp).1 =
        .ok l → l.length = maxReslen ∧
        ∀ i : Nat, resp.written.length ≤ i → i < maxReslen →
          l.getD i WasiAddrInfo.default = WasiAddrInfo.default) ∧
    (∀ c : Nat,
      (WasiAddrinfo.get_addrinfo node service hints maxReslen
        ⟨resp.hostRes, resp.written, c⟩).1 =
      (WasiAddrinfo.get_addrinfo node service hints maxReslen resp).1) := by
  have h16 : intToU16 resp.hostRes = 0 := by rw [h0]; rfl
  have harr : (WasiAddrinfo.get_addrinfo node service hints maxReslen resp).1 =
      .ok (resp.written.take maxReslen ++
        List.replicate (maxReslen - (resp.written.take maxReslen).length)
          WasiAddrInfo.default) := by
    simp [WasiAddrinfo.get_addrinfo, h16]
  refine ⟨harr, ?_, fun c => rfl⟩
  intro l hl
  rw [harr, Except.ok.injEq] at hl
  subst hl
  constructor
  · simp [List.length_append, List.length_take, List.length_replicate]
  · intro i hwi him
    have htl : (resp.written.take maxReslen).length ≤ i := by
      rw [List.length_take]
      omega
    rw [List.getD_eq_getElem?_getD, List.getElem?_append_right htl,
      ← List.getD_eq_getElem?_getD]
    exact getD_replicate_default _ _ _

/-- Witness for C10: with max 2 and no host-written entries the result is
two default entries, independent of the actual count. -/
theorem get_addrinfo_result_length_and_defaults_witness :
    (WasiAddrinfo.get_addrinfo [104, 0] [0]
      ⟨.aiPassive, .inet4, .stream, .ipProtoTCP, 0, 0⟩ 2 ⟨0, [], 7⟩).1 =
      Except.ok [WasiAddrInfo.default, WasiAddrInfo.default] := by
  have h := (get_addrinfo_result_length_and_defaults [104, 0] [0]
    ⟨.aiPassive, .inet4, .stream, .ipProtoTCP, 0, 0⟩ 2 ⟨0, [], 7⟩ rfl).1
  simpa using h

/-- C8: each typed socket-option variant routes to exactly its documented
host entry point and no other, with booleans encoded as 0/1 in the 32-bit
option field and timeout values passed as the microsecond count in the
64-bit field. -/
theorem setsockopt_socket_routing (fd : Nat) (host : HostCall → Int)
    (b1 b2 b3 b4 : Bool) (sz1 sz2 t1 t2 : Nat)
    (ht1 : t1 < 2 ^ 63) (ht2 : t2 < 2 ^ 63) :
    (Socket.setsockopt_socket fd (.soReuseaddr b1) host).2 =
      [.sockSetReuseAddr fd (if b1 then 1 else 0)] ∧
    (Socket.setsockopt_socket fd (.soReuseport b2) host).2 =
      [.sockSetReusePort fd (if b2 then 1 else 0)] ∧
    (Socket.setsockopt_socket fd (.soBroadcast b3) host).2 =
      [.sockSetBroadcast fd (if b3 then 1 else 0)] ∧
    (Socket.setsockopt_socket fd (.soKeepalive b4) host).2 =
      [.sockSetKeepAlive fd (if b4 then 1 else 0)] ∧
    (Socket.setsockopt_socket fd (.soSndbuf sz1) host).2 =
      [.sockSetSendBufSize fd (u32ToI32 sz1)] ∧
    (Socket.setsockopt_socket fd (.soRcvbuf sz2) host).2 =
      [.sockSetRecvBufSize fd (u32ToI32 sz2)] ∧
    (Socket.setsockopt_socket fd (.soRcvtimeo t1) host).2 =
      [.sockSetRecvTimeout fd (t1 : Int)] ∧
    (Socket.setsockopt_socket fd (.soSndtimeo t2) host).2 =
      [.sockSetSendTimeout fd (t2 : Int)] := by
  refine ⟨rfl, rfl, rfl, rfl, rfl, rfl, ?_, ?_⟩
  · simp [Socket.setsockopt_socket, u64ToI64_small ht1]
  · simp [Socket.setsockopt_socket, u64ToI64_small ht2]

/-- Witness for C8: a one-second receive timeout is routed to
`sock_set_recv_timeout` as 1000000 microseconds. -/
theorem setsockopt_socket_routing_witness :
    (Socket.setsockopt_socket 3 (.soRcvtimeo 1000000) (fun _ => 0)).2 =
      [HostCall.sockSetRecvTimeout 3 (1000000 : Int)] :=
  (setsockopt_socket_routing 3 (fun _ => 0) true true true true 0 0
    1000000 0 (by norm_num) (by norm_num)).2.2.2.2.2.2.1

/-- C1 amended: for every host errno in the `u16` errno range, `new`,
`bind`, `listen`, `connect` (IPv4 path), `send`, `send_to`, `recv`,
`shutdown`, the typed option setter/getter pair and the
`sock_getsockopt`-based option getters return success exactly when the host
returns `0` and otherwise an error carrying the host code unchanged, with
two exceptions forced by the code: `accept` on host success additionally
propagates any failure of its `set_nonblocking` fcntl step, and `r#type` on
host success returns a value only when the host-reported type is 1 or 2,
otherwise a local `EINVAL`; `recv_from` on host success yields the decoded
peer address when the family tag is recognized. -/
theorem errno_passthrough_amended (fd : Nat) (e : Nat) (he : e < 2 ^ 16)
    (af : AddressFamily) (k : SocketType) (outFd : Nat) (addrs : SockAddr)
    (x4 : SockAddrV4) (backlog : Nat) (nb : Bool)
    (getRes setRes : Except Int Nat) (bufLen sendLen recvLen : Nat)
    (how : Shutdown) (name : SocketOptName) (val : Int)
    (addrBuf : List Nat) (sinPort : Nat) :
    (Socket.new af k (fun _ _ => (e : Int)) outFd =
      if e = 0 then .ok (u32ToI32 outFd)
      else .error (.rawOsError (e : Int))) ∧
    (Socket.bind fd addrs (fun _ _ _ => e) =
      if e = 0 then .ok () else .error (.rawOsError (e : Int))) ∧
    (Socket.listen fd backlog e =
      if e = 0 then .ok () else .error (.rawOsError (e : Int))) ∧
    (e ≠ 0 → Socket.accept fd nb e outFd getRes setRes =
      .error (.rawOsError (e : Int))) ∧
    (Socket.accept fd nb 0 outFd getRes setRes =
      (Socket.set_nonblocking (u32ToI32 outFd) nb getRes setRes).map
        (fun _ => u32ToI32 outFd)) ∧
    ((Socket.connect fd (.v4 x4) (fun _ => (e : Int))).1 =
      if e = 0 then .ok () else .error (.rawOsError (e : Int))) ∧
    (Socket.send fd bufLen e sendLen =
      if e = 0 then .ok sendLen else .error (.rawOsError (e : Int))) ∧
    (Socket.send_to fd bufLen addrs (fun _ _ => e) sendLen =
      if e = 0 then .ok sendLen else .error (.rawOsError (e : Int))) ∧
    (Socket.recv fd bufLen e recvLen =
      if e = 0 then .ok recvLen else .error (.rawOsError (e : Int))) ∧
    (e ≠ 0 → Socket.recv_from fd e addrBuf sinPort recvLen =
      .err (.rawOsError (e : Int))) ∧
    (∀ a, decodeRecvFromAddr addrBuf sinPort = .ok a →
      Socket.recv_from fd 0 addrBuf sinPort recvLen = .ok (recvLen, a)) ∧
    (Socket.shutdown fd how e =
      if e = 0 then .ok () else .error (.rawOsError (e : Int))) ∧
    ((Socket.setsockopt_socket fd name (fun _ => (e : Int))).1 =
      if e = 0 then .ok () else .error (.rawOsError (e : Int))) ∧
    ((Socket.getsockopt_socket fd name (fun _ => (e : Int))).1 =
      if e = 0 then .ok () else .error (.rawOsError (e : Int))) ∧
    (Socket.broadcast fd e val =
      if e = 0 then .ok (decide (val ≠ 0))
      else .error (.rawOsError (e : Int))) ∧
    (Socket.keepalive fd e val =
      if e = 0 then .ok (decide (val ≠ 0))
      else .error (.rawOsError (e : Int))) ∧
    (Socket.reuse_address fd e val =
      if e = 0 then .ok (decide (val ≠ 0))
      else .error (.rawOsError (e : Int))) ∧
    (Socket.is_listener fd e val =
      if e = 0 then .ok (decide (val ≠ 0))
      else .error (.rawOsError (e : Int))) ∧
    (Socket.recv_buffer_size fd e val =
      if e = 0 then .ok (intToU32 val)
      else .error (.rawOsError (e : Int))) ∧
    (Socket.send_buffer_size fd e val =
      if e = 0 then .ok (intToU32 val)
      else .error (.rawOsError (e : Int))) ∧
    (e ≠ 0 → Socket.type fd e val = .error (.rawOsError (e : Int))) ∧
    (Socket.type fd 0 1 = .ok .datagram) ∧
    (Socket.type fd 0 2 = .ok .stream) ∧
    (val ≠ 1 → val ≠ 2 →
      Socket.type fd 0 val = .error (.rawOsError EINVAL)) := by
  have he31 : e < 2 ^ 31 := lt_trans he (by norm_num)
  have hu : u32ToI32 e = (e : Int) := u32ToI32_small he31
  have h16 : intToU16 (e : Int) = e := intToU16_natCast he
  refine ⟨?_, ?_, ?_, ?_, ?_, ?_, ?_, ?_, ?_, ?_, ?_, ?_, ?_, ?_, ?_, ?_,
    ?_, ?_, ?_, ?_, ?_, ?_, ?_, ?_⟩
  · by_cases h : e = 0 <;> simp [Socket.new, h16, intToU16_zero, h]
  · by_cases h : e = 0 <;> simp [Socket.bind, hu, h]
  · by_cases h : e = 0 <;> simp [Socket.listen, hu, h]
  · intro h
    simp [Socket.accept, hu, h]
  · cases hsn : Socket.set_nonblocking (u32ToI32 outFd) nb getRes setRes <;>
      simp [Socket.accept, hsn, Except.map]
  · by_cases h : e = 0 <;> simp [Socket.connect, h16, intToU16_zero, h]
  · by_cases h : e = 0 <;> simp [Socket.send, hu, h]
  · by_cases h : e = 0 <;> simp [Socket.send_to, hu, h]
  · by_cases h : e = 0 <;> simp [Socket.recv, hu, h]
  · intro h
    simp [Socket.recv_from, hu, h]
  · intro a ha
    simp [Socket.recv_from, ha]
  · by_cases h : e = 0 <;> simp [Socket.shutdown, hu, h]
  · by_cases h : e = 0 <;> simp [Socket.setsockopt_socket, h16, intToU16_zero, h]
  · by_cases h : e = 0 <;> simp [Socket.getsockopt_socket, h16, intToU16_zero, h]
  · by_cases h : e = 0 <;> simp [Socket.broadcast, hu, h]
  · by_cases h : e = 0 <;> simp [Socket.keepalive, hu, h]
  · by_cases h : e = 0 <;> simp [Socket.reuse_address, hu, h]
  · by_cases h : e = 0 <;> simp [Socket.is_listener, hu, h]
  · by_cases h : e = 0 <;> simp [Socket.recv_buffer_size, hu, h]
  · by_cases h : e = 0 <;> simp [Socket.send_buffer_size, hu, h]
  · intro h
    simp [Socket.type, hu, h]
  · rfl
  · rfl
  · intro h1 h2
    simp [Socket.type, h1, h2]

/-- Witness for the amended C1: a concrete host errno `5` is surfaced by
`bind` unchanged, and `shutdown` succeeds on host errno `0`. -/
theorem errno_passthrough_amended_witness :
    Socket.bind 3 (SockAddr.v4 ⟨127, 0, 0, 1, 8080⟩) (fun _ _ _ => 5) =
      Except.error (IOError.rawOsError 5) ∧
    Socket.shutdown 3 Shutdown.both 0 = Except.ok () := by
  have h := errno_passthrough_amended 3 5 (by norm_num) .inet4 .stream 4
    (SockAddr.v4 ⟨127, 0, 0, 1, 8080⟩) ⟨127, 0, 0, 1, 8080⟩ 128 false
    (.ok 0) (.ok 0) 0 0 0 .both (.soReuseaddr true) 0 [] 0
  have h0 := errno_passthrough_amended 3 0 (by norm_num) .inet4 .stream 4
    (SockAddr.v4 ⟨127, 0, 0, 1, 8080⟩) ⟨127, 0, 0, 1, 8080⟩ 128 false
    (.ok 0) (.ok 0) 0 0 0 .both (.soReuseaddr true) 0 [] 0
  constructor
  · have hb := h.2.1
    simpa using hb
  · have hs := h0.2.2.2.2.2.2.2.2.2.2.2.1
    simpa using hs

end WasiSocket
